import Mathlib

/-!
Verification of the `speedtest-controller` plugin orchestration core
(repository `proxy-speedtest`), as a shallow embedding in Lean 4.

Sources embedded:
  * `src/speedtest-controller/src/plugin.rs`    — data model, `Plugin` trait
  * `src/speedtest-controller/src/plugin_loader.rs` — `PluginLoaderError`
  * `src/speedtest-controller/src/process.rs`   — readiness-gated launcher
  * `src/speedtest-controller/src/speedtest.rs` — registry + discovery
  * `src/speedtest-controller/src/main.rs`      — test execution engine

Modelling conventions:
  * `async fn ... -> Result<T, E>` becomes a pure function into `Except E T`.
    The engine awaits every call sequentially inside stream combinators, so
    the pure sequential model captures the data flow exactly.
  * `HashMap` values built by `.collect()` are modelled as association lists
    in iteration order; the claims under study are about key sets, key
    absence and entry values, all of which are invariant under the
    hash-map collection of the same entries.
  * A Rust `panic!` is modelled as the error channel of an outer `Except
    Panic`: `panic!` unwinds through `join_all` and `SpeedTest::new`, so a
    panicking future aborts the whole registry construction.
  * The spawned subprocess is external: per plugin, a `World` supplies the
    merged (arrival-order) sequence of stdout/stderr lines and the outcome
    of `JSONRPCPlugin::new` at a given endpoint.
-/

namespace ProxySpeedtest

/-- `serde_json::Value`: opaque structured values (configs, protocol
content, test results). Modelled with the JSON shapes the sources use. -/
inductive Value where
  | null : Value
  | bool (b : Bool) : Value
  | num (n : Int) : Value
  | str (s : String) : Value
  | obj (fields : List (String × Value)) : Value

/-- `plugin.rs::PluginMetaData`. -/
structure PluginMetaData where
  name : String
deriving DecidableEq

/-- `plugin.rs::TestDescriptor`. -/
structure TestDescriptor where
  name : String
deriving DecidableEq

/-- `plugin.rs::DataTransformDescriptor` (field name `accpeted_scheme` sic). -/
structure DataTransformDescriptor where
  name : String
  accpeted_scheme : String
deriving DecidableEq

/-- `plugin.rs::ProtocolDescriptor`. -/
structure ProtocolDescriptor where
  name : String
  content : Value

/-- `plugin.rs::ConnectionDescriptor`. -/
structure ConnectionDescriptor where
  http : Option String
  socks5 : Option String
  tun : Bool
deriving DecidableEq

/-- `plugin.rs::PluginError`; payloads carry the display text of the inner
error. -/
inductive PluginError where
  | ClientError (msg : String)
  | APIBadResponse (msg : String)
  | ParseError (msg : String)
  | WsHandshakeError (msg : String)
deriving DecidableEq

/-- `url::Url`, reduced to the two accessors the sources use
(`scheme()` and `path()`). -/
structure Url where
  scheme : String
  path : String
deriving DecidableEq

/-- `plugin_loader.rs::PluginLoaderError`. -/
inductive PluginLoaderError where
  | UnexpectedScheme (source : Url)
  | PluginError (e : PluginError)
deriving DecidableEq

/-- `plugin.rs::PluginType` (single variant). -/
inductive PluginType where
  | JSONRPC
deriving DecidableEq

/-- `speedtest.rs::PluginConfig`. -/
structure PluginConfig where
  source : Url
  plugin_type : PluginType
  config : Value

/-- The `Plugin` trait of `plugin.rs`: each capability is a (deterministic)
function of its arguments, failing with `PluginError`.  `main.rs` invokes
the connection-setup capability under the name `configure`; the trait names
it `setup_proxy` — same capability, see `Plugin.configure` below. -/
structure Plugin where
  init : Unit → Except PluginError Unit
  metadata : Unit → Except PluginError PluginMetaData
  tests : Unit → Except PluginError (List TestDescriptor)
  setup_proxy : Value → Except PluginError ConnectionDescriptor
  run_test : TestDescriptor → ConnectionDescriptor → Except PluginError Value
  data_transforms : Unit → Except PluginError (List DataTransformDescriptor)
  parse_protocol : String → Except PluginError (List ProtocolDescriptor)

/-- The `configure` call of `main.rs` line 52 (the set-up-proxy capability). -/
def Plugin.configure (p : Plugin) (proxy : Value) :
    Except PluginError ConnectionDescriptor :=
  p.setup_proxy proxy

/- ------------------------------------------------------------------
`process.rs::create_process_and_wait_for_pattern`
------------------------------------------------------------------- -/

/-- A Rust `panic!`; `process.rs` line 65 panics with the regex's text when
both output streams end before a matching line. -/
inductive Panic where
  | noPatternMatch (pattern : String)
deriving DecidableEq

/-- The loop of `process.rs` lines 54-63: scan the merged arrival-order
line sequence; on the first line where the regex produces a match, return
that match's captures together with the lines not yet consumed; `none`
models falling out of the loop (both streams exhausted). -/
def waitForPattern {α : Type} (re : String → Option α) :
    List String → Option (α × List String)
  | [] => none
  | l :: ls =>
    match re l with
    | some caps => some (caps, ls)
    | none => waitForPattern re ls

/-- `process.rs::create_process_and_wait_for_pattern`: apply `transform` to
the first match's captures and return it with the live process (modelled by
the unconsumed remainder of its output). `none` is the `panic!` case. -/
def create_process_and_wait_for_pattern {α β : Type}
    (re : String → Option α) (transform : α → β) (lines : List String) :
    Option (β × List String) :=
  match waitForPattern re lines with
  | some (caps, rest) => some (transform caps, rest)
  | none => none

/-- The regex text `speedtest.rs` line 88 compiles. -/
def listenPattern : String := "Listen on (.+)"

/-- The literal part of the regex, as characters. -/
def listenNeedle : List Char := ['L', 'i', 's', 't', 'e', 'n', ' ', 'o', 'n', ' ']

/-- Match a literal needle at the head of a character list, returning the
remainder on success. -/
def matchHead : List Char → List Char → Option (List Char)
  | [], rest => some rest
  | _ :: _, [] => none
  | p :: ps, c :: cs => if c = p then matchHead ps cs else none

/-- Remainder after the leftmost occurrence of `listenNeedle`. -/
def findListenAfter : List Char → Option (List Char)
  | [] => none
  | c :: cs =>
    match matchHead listenNeedle (c :: cs) with
    | some rest => some rest
    | none => findListenAfter cs

/-- First match of the regex `Listen on (.+)` in one line: the capture is
everything after the leftmost occurrence of `"Listen on "`, provided it is
non-empty (`.+` needs at least one character and runs greedily to the end
of the line; a leftmost occurrence with empty remainder sits at the end of
the line, so no further occurrence can match either). -/
def listenMatch (line : String) : Option String :=
  match findListenAfter line.toList with
  | some rest => if rest = [] then none else some (String.mk rest)
  | none => none

/- ------------------------------------------------------------------
`speedtest.rs`: plugin loading, registry, discovery
------------------------------------------------------------------- -/

/-- The environment of one plugin subprocess: the merged arrival-order
stdout/stderr line sequence it emits, and what `JSONRPCPlugin::new` yields
at a given endpoint with a given config (opening the websocket channel may
fail with `ParseError` or `WsHandshakeError`). -/
structure World where
  lines : List String
  rpcNew : String → Value → Except PluginError Plugin

/-- `speedtest.rs::load_json_rpc_plugin`.  Outer `Except Panic` is the
launcher's `panic!`; the inner `Except PluginLoaderError` is the function's
`Result`.  The `file` scheme runs the launcher on the plugin's output and
opens the RPC channel at the extracted endpoint; any other scheme is
`UnexpectedScheme`. -/
def load_json_rpc_plugin (config : PluginConfig) (world : World) :
    Except Panic (Except PluginLoaderError Plugin) :=
  if config.source.scheme = "file" then
    match create_process_and_wait_for_pattern listenMatch id world.lines with
    | none => .error (.noPatternMatch listenPattern)
    | some (endpoint, _rest) =>
      .ok (match world.rpcNew endpoint config.config with
           | .ok plugin => .ok plugin
           | .error e => .error (.PluginError e))
  else
    .ok (.error (.UnexpectedScheme config.source))

/-- Registry mapping: plugin name → plugin handle (`PluginMap`). -/
abbrev PluginMap := List (String × Plugin)

/-- The `join_all` of `SpeedTest::new` lines 103-108: load every entry;
a `panic!` in any load unwinds through `join_all` and aborts the whole
construction. -/
def loadAll : List (String × PluginConfig) → (String → World) →
    Except Panic (List (String × Except PluginLoaderError Plugin))
  | [], _ => .ok []
  | kv :: rest, world =>
    match load_json_rpc_plugin kv.2 (world kv.1), loadAll rest world with
    | .error p, _ => .error p
    | .ok _, .error p => .error p
    | .ok r, .ok rs => .ok ((kv.1, r) :: rs)

/-- `SpeedTest::new` lines 102-125: load all plugins, keep the `Ok` ones
(the `Err` ones are logged and dropped by the `filter_map`). -/
def SpeedTest.new (plugins : List (String × PluginConfig))
    (world : String → World) : Except Panic PluginMap :=
  match loadAll plugins world with
  | .error p => .error p
  | .ok loaded =>
    .ok (loaded.filterMap fun kv =>
      match kv.2 with
      | .ok p => some (kv.1, p)
      | .error _ => none)

/-- `speedtest.rs::get_provider_map` lines 36-64: call `transform` on every
registered plugin (the `join_all` fan-out), then keep exactly the `Ok`
results, each plugin mapped to the vector its call returned. -/
def get_provider_map {Content Args Err : Type} (plugin_map : PluginMap)
    (transform : String → Plugin → Args → Except Err (List Content))
    (args : Args) : List (String × Plugin × List Content) :=
  (plugin_map.map fun kv => (kv.1, kv.2, transform kv.1 kv.2 args)).filterMap
    fun x =>
      match x.2.2 with
      | .ok v => some (x.1, x.2.1, v)
      | .error _ => none

/-- `SpeedTest::get_proxy_provider` lines 127-136. -/
def SpeedTest.get_proxy_provider (plugin_map : PluginMap)
    (connection_string : String) :
    List (String × Plugin × List ProtocolDescriptor) :=
  get_provider_map plugin_map
    (fun _ plugin cs => plugin.parse_protocol cs) connection_string

/-- `SpeedTest::get_test_provider` lines 138-145. -/
def SpeedTest.get_test_provider (plugin_map : PluginMap) :
    List (String × Plugin × List TestDescriptor) :=
  get_provider_map plugin_map (fun _ plugin _ => plugin.tests ()) ()

/- ------------------------------------------------------------------
`main.rs`: the test execution engine (lines 39-110)
------------------------------------------------------------------- -/

/-- Innermost `filter_map` of `main.rs` lines 72-96: run every test of one
test provider against one live connection; an `Ok` result becomes the leaf
`(test.name, value)`, an `Err` is logged and yields no leaf. -/
def testLeaves (plugin : Plugin) (tests : List TestDescriptor)
    (conn : ConnectionDescriptor) : List (String × Value) :=
  tests.filterMap fun t =>
    match plugin.run_test t conn with
    | .ok v => some (t.name, v)
    | .error _ => none

/-- The `.then` sweep of `main.rs` lines 65-100: every test provider gets
an entry (its key is always present), holding its leaves for this
connection. -/
def runTestsForConn (test_providers : List (String × Plugin × List TestDescriptor))
    (conn : ConnectionDescriptor) : List (String × List (String × Value)) :=
  test_providers.map fun e => (e.1, testLeaves e.2.1 e.2.2 conn)

/-- The proxy-level `filter_map` of `main.rs` lines 49-104: configure each
proxy on its owning plugin; on failure the proxy contributes no entry; on
success its entry holds the full test sweep over the obtained connection. -/
def runProxies (plugin : Plugin) (proxies : List ProtocolDescriptor)
    (test_providers : List (String × Plugin × List TestDescriptor)) :
    List (String × List (String × List (String × Value))) :=
  proxies.filterMap fun proxy =>
    match plugin.configure proxy.content with
    | .error _ => none
    | .ok conn => some (proxy.name, runTestsForConn test_providers conn)

/-- The outer `.then` sweep of `main.rs` lines 40-109: every proxy provider
gets a top-level entry holding its proxies' results — the four-level
result tree `Output.test_results`. -/
def run_tests (proxy_providers : List (String × Plugin × List ProtocolDescriptor))
    (test_providers : List (String × Plugin × List TestDescriptor)) :
    List (String × List (String × List (String × List (String × Value)))) :=
  proxy_providers.map fun e => (e.1, runProxies e.2.1 e.2.2 test_providers)

/-- `main.rs` lines 36-110 end to end: build the registry, run both
discovery sweeps, then the execution engine; a launcher `panic!` aborts
the run. -/
def pipeline (plugins : List (String × PluginConfig)) (world : String → World)
    (connection_string : String) :
    Except Panic (List (String × List (String × List (String × List (String × Value))))) :=
  match SpeedTest.new plugins world with
  | .error p => .error p
  | .ok pm =>
    .ok (run_tests (SpeedTest.get_proxy_provider pm connection_string)
      (SpeedTest.get_test_provider pm))

/- ------------------------------------------------------------------
Capability-call instrumentation: the sequence of RPC capability calls the
core issues, read off the await points of `speedtest.rs` and `main.rs`.
------------------------------------------------------------------- -/

/-- One capability invocation issued by the core to a plugin. -/
inductive CallEvent where
  | init (plugin : String)
  | metadata (plugin : String)
  | tests (plugin : String)
  | parse_protocol (plugin : String)
  | setup_proxy (provider : String) (proxy : String)
  | run_test (provider : String) (test : String)
deriving DecidableEq

/-- Capability calls issued while constructing one plugin
(`load_json_rpc_plugin` + `JSONRPCPlugin::new`): the launcher reads output
lines and `JSONRPCPlugin::new` opens the websocket channel, but no RPC
capability request is sent during construction. -/
def loadTrace (_plugins : List (String × PluginConfig))
    (_world : String → World) : List CallEvent := []

/-- Calls of the proxy-discovery sweep (`get_proxy_provider`): one
`parse_protocol` per registered plugin. -/
def proxyDiscoveryTrace (pm : PluginMap) : List CallEvent :=
  pm.map fun kv => .parse_protocol kv.1

/-- Calls of the test-discovery sweep (`get_test_provider`): one `tests`
per registered plugin. -/
def testDiscoveryTrace (pm : PluginMap) : List CallEvent :=
  pm.map fun kv => .tests kv.1

/-- Calls of the execution engine (`main.rs` lines 39-110): one `configure`
(set-up-proxy) per proxy of each provider; on success, one `run_test` per
test of each test provider. -/
def execTrace (proxy_providers : List (String × Plugin × List ProtocolDescriptor))
    (test_providers : List (String × Plugin × List TestDescriptor)) :
    List CallEvent :=
  proxy_providers.flatMap fun e =>
    e.2.2.flatMap fun proxy =>
      .setup_proxy e.1 proxy.name ::
        (match e.2.1.configure proxy.content with
         | .error _ => []
         | .ok _ =>
           test_providers.flatMap fun te => te.2.2.map fun t => .run_test te.1 t.name)

/-- The capability calls of a whole run in program order (a linearization
of the concurrent fan-outs); a launcher `panic!` aborts before any
capability call is issued. -/
def pipelineTrace (plugins : List (String × PluginConfig))
    (world : String → World) (connection_string : String) : List CallEvent :=
  match SpeedTest.new plugins world with
  | .error _ => loadTrace plugins world
  | .ok pm =>
    loadTrace plugins world ++ proxyDiscoveryTrace pm ++ testDiscoveryTrace pm
      ++ execTrace (SpeedTest.get_proxy_provider pm connection_string)
        (SpeedTest.get_test_provider pm)

/- ------------------------------------------------------------------
Concrete scenario data (the spec's §8 scenario: one plugin `A`, one
proxy `p1`, one test `t1`)
------------------------------------------------------------------- -/

/-- `p1.content`, plugin-private. -/
def contentP1 : Value := .str "x-p1"

/-- The proxy descriptor `A.parse_protocol "x"` returns. -/
def descP1 : ProtocolDescriptor := ⟨"p1", contentP1⟩

/-- The test descriptor `A.tests()` returns. -/
def descT1 : TestDescriptor := ⟨"t1"⟩

/-- The connection `A.set_up_proxy(p1.content)` returns. -/
def connA : ConnectionDescriptor := ⟨none, some "127.0.0.1:1080", false⟩

/-- The value `A.run_test(t1, conn)` returns. -/
def latency42 : Value := .obj [("latency_ms", .num 42)]

/-- Plugin `A` of the scenario. -/
def pluginA : Plugin where
  init _ := .ok ()
  metadata _ := .ok ⟨"A"⟩
  tests _ := .ok [descT1]
  setup_proxy _ := .ok connA
  run_test _ _ := .ok latency42
  data_transforms _ := .ok []
  parse_protocol _ := .ok [descP1]

/-- A `file`-scheme configuration for plugin `A`. -/
def cfgFileA : PluginConfig := ⟨⟨"file", "/opt/pluginA"⟩, .JSONRPC, .null⟩

/-- Plugin `A`'s subprocess announces its endpoint and the channel opens
onto `pluginA`. -/
def worldA : World := ⟨["Listen on 127.0.0.1:9000"], fun _ _ => .ok pluginA⟩

/-- A plugin whose proxy setup (and test run) always fails. -/
def pluginFail : Plugin where
  init _ := .ok ()
  metadata _ := .ok ⟨"F"⟩
  tests _ := .ok [descT1]
  setup_proxy _ := .error (.ClientError "connection refused")
  run_test _ _ := .error (.ClientError "connection refused")
  data_transforms _ := .ok []
  parse_protocol _ := .ok [descP1]

/-- A plugin for which exactly the test named `bad` fails. -/
def pluginSel : Plugin where
  init _ := .ok ()
  metadata _ := .ok ⟨"S"⟩
  tests _ := .ok [⟨"good"⟩, ⟨"bad"⟩]
  setup_proxy _ := .ok connA
  run_test t _ := if t.name = "bad" then .error (.APIBadResponse "boom")
    else .ok (.num 1)
  data_transforms _ := .ok []
  parse_protocol _ := .ok [descP1]

/-- A plugin whose `parse_protocol` fails but whose `tests` succeeds. -/
def pluginPF : Plugin where
  init _ := .ok ()
  metadata _ := .ok ⟨"PF"⟩
  tests _ := .ok [descT1]
  setup_proxy _ := .ok connA
  run_test _ _ := .ok (.num 1)
  data_transforms _ := .ok []
  parse_protocol _ := .error (.ClientError "cannot parse")

/-- A plugin whose `parse_protocol` succeeds but whose `tests` fails. -/
def pluginPS : Plugin where
  init _ := .ok ()
  metadata _ := .ok ⟨"PS"⟩
  tests _ := .error (.ClientError "no test list")
  setup_proxy _ := .ok connA
  run_test _ _ := .ok (.num 1)
  data_transforms _ := .ok []
  parse_protocol _ := .ok [descP1]

/-- A `file`-scheme configuration whose subprocess never becomes ready. -/
def cfgFileBad : PluginConfig := ⟨⟨"file", "/opt/bad"⟩, .JSONRPC, .null⟩

/-- A `docker`-scheme configuration (reserved, unimplemented scheme). -/
def cfgDockerD : PluginConfig := ⟨⟨"docker", "img:tag"⟩, .JSONRPC, .null⟩

/-- A subprocess that exits without emitting any line: both output streams
end before any readiness match. -/
def worldSilent : World := ⟨[], fun _ _ => .ok pluginA⟩

/-- Worlds for the two-plugin launcher-failure scenario. -/
def world2 : String → World := fun n => if n = "bad" then worldSilent else worldA

/-- Proxy providers of the mixed success/failure scenario. -/
def provP0 : List (String × Plugin × List ProtocolDescriptor) :=
  [("A", pluginA, [descP1]), ("F", pluginFail, [descP1])]

/-- Test providers of the mixed success/failure scenario. -/
def provT0 : List (String × Plugin × List TestDescriptor) :=
  [("A", pluginA, [descT1]), ("F", pluginFail, [descT1])]

/-- Registry for the discovery-isolation scenario. -/
def pmC6 : PluginMap := [("PF", pluginPF), ("PS", pluginPS)]

/- ------------------------------------------------------------------
Helper lemmas
------------------------------------------------------------------- -/

/-- Lines on which the pattern produces no match are skipped by the
launcher loop. -/
lemma waitForPattern_append_none {α : Type} (re : String → Option α)
    (pre rest : List String) (hpre : ∀ x ∈ pre, re x = none) :
    waitForPattern re (pre ++ rest) = waitForPattern re rest := by
  induction pre with
  | nil => rfl
  | cons x xs ih =>
    have hx : re x = none := hpre x (List.mem_cons_self x xs)
    simp only [List.cons_append, waitForPattern, hx]
    exact ih fun y hy => hpre y (List.mem_cons_of_mem x hy)

/-- In an association list with pairwise-distinct keys, a key determines
its value. -/
lemma assoc_value_eq {α β : Type} [DecidableEq α] {l : List (α × β)}
    (hnodup : (l.map Prod.fst).Nodup) {k : α} {b b' : β}
    (h1 : (k, b) ∈ l) (h2 : (k, b') ∈ l) : b = b' := by
  induction l with
  | nil => cases h1
  | cons kv rest ih =>
    simp only [List.map_cons, List.nodup_cons] at hnodup
    rcases List.mem_cons.mp h1 with h1 | h1 <;>
      rcases List.mem_cons.mp h2 with h2 | h2
    · rw [← h1] at h2
      injection h2 with _ hb
      exact hb.symm
    · exfalso
      have hk : k ∈ rest.map Prod.fst := List.mem_map_of_mem Prod.fst h2
      rw [← h1] at hnodup
      exact hnodup.1 hk
    · exfalso
      have hk : k ∈ rest.map Prod.fst := List.mem_map_of_mem Prod.fst h1
      rw [← h2] at hnodup
      exact hnodup.1 hk
    · exact ih hnodup.2 h1 h2

/-- Every key of a discovery (provider) map is a key of the registry. -/
lemma get_provider_map_keys_sub {Content Args Err : Type}
    (plugin_map : PluginMap)
    (transform : String → Plugin → Args → Except Err (List Content))
    (args : Args) {n : String}
    (h : n ∈ (get_provider_map plugin_map transform args).map Prod.fst) :
    n ∈ plugin_map.map Prod.fst := by
  simp only [get_provider_map, List.map_filterMap, List.mem_filterMap,
    List.mem_map] at h
  obtain ⟨x, ⟨kv, hkv, hx⟩, hn⟩ := h
  subst hx
  dsimp only at hn
  rcases hres : transform kv.1 kv.2 args with e | v <;> rw [hres] at hn
  · cases hn
  · simp only [Option.map_some', Option.some.injEq] at hn
    exact hn ▸ List.mem_map_of_mem Prod.fst hkv

/-- A plugin whose discovery call succeeds is mapped to exactly the
returned descriptor sequence. -/
lemma mem_get_provider_map_of_ok {Content Args Err : Type}
    (plugin_map : PluginMap)
    (transform : String → Plugin → Args → Except Err (List Content))
    (args : Args) {n : String} {p : Plugin} {v : List Content}
    (hmem : (n, p) ∈ plugin_map) (hok : transform n p args = .ok v) :
    (n, p, v) ∈ get_provider_map plugin_map transform args := by
  simp only [get_provider_map, List.mem_filterMap, List.mem_map]
  exact ⟨(n, p, transform n p args), ⟨(n, p), hmem, rfl⟩, by rw [hok]⟩

/-- A plugin whose discovery call fails contributes no key to the
provider map (keys of the registry being pairwise distinct). -/
lemma not_mem_provider_map_of_error {Content Args Err : Type}
    (plugin_map : PluginMap)
    (transform : String → Plugin → Args → Except Err (List Content))
    (args : Args) {n : String} {p : Plugin} {e : Err}
    (hnodup : (plugin_map.map Prod.fst).Nodup)
    (hmem : (n, p) ∈ plugin_map) (herr : transform n p args = .error e) :
    n ∉ (get_provider_map plugin_map transform args).map Prod.fst := by
  intro h
  simp only [get_provider_map, List.map_filterMap, List.mem_filterMap,
    List.mem_map] at h
  obtain ⟨x, ⟨kv, hkv, hx⟩, hn⟩ := h
  subst hx
  dsimp only at hn
  rcases hres : transform kv.1 kv.2 args with e' | v <;> rw [hres] at hn
  · cases hn
  · simp only [Option.map_some', Option.some.injEq] at hn
    subst hn
    have : kv.2 = p := by
      have : kv = (kv.1, kv.2) := rfl
      exact assoc_value_eq hnodup (this ▸ hkv) hmem
    rw [this] at hres
    rw [hres] at herr
    cases herr

/-- When registry construction succeeds, every registry key comes from a
configured plugin of that name whose load returned `Ok`. -/
lemma new_ok_mem_keys {plugins : List (String × PluginConfig)}
    {world : String → World} {pm : PluginMap} {n : String}
    (hok : SpeedTest.new plugins world = .ok pm)
    (hn : n ∈ pm.map Prod.fst) :
    ∃ cfg, (n, cfg) ∈ plugins ∧
      ∃ p, load_json_rpc_plugin cfg (world n) = .ok (.ok p) := by
  induction plugins generalizing pm with
  | nil =>
    simp only [SpeedTest.new, loadAll] at hok
    cases hok
    cases hn
  | cons kv rest ih =>
    simp only [SpeedTest.new, loadAll] at hok
    rcases hload : load_json_rpc_plugin kv.2 (world kv.1) with p | r <;>
      rw [hload] at hok
    · cases hok
    rcases hrest : loadAll rest world with p | rs <;> rw [hrest] at hok
    · cases hok
    cases hok
    rcases r with e | plug
    · -- head load produced a `LoadError`: dropped, key comes from the tail
      simp only [List.filterMap_cons] at hn
      have hrec : SpeedTest.new rest world =
          .ok (rs.filterMap fun kv =>
            match kv.2 with
            | .ok p => some (kv.1, p)
            | .error _ => none) := by
        simp only [SpeedTest.new, hrest]
      obtain ⟨cfg, hcfg, hp⟩ := ih hrec hn
      exact ⟨cfg, List.mem_cons_of_mem kv hcfg, hp⟩
    · simp only [List.filterMap_cons, List.map_cons, List.mem_cons] at hn
      rcases hn with hn | hn
      · refine ⟨kv.2, ?_, plug, ?_⟩
        · rw [hn]; exact List.mem_cons_self _ _
        · rw [hn]; exact hload
      · have hrec : SpeedTest.new rest world =
            .ok (rs.filterMap fun kv =>
              match kv.2 with
              | .ok p => some (kv.1, p)
              | .error _ => none) := by
          simp only [SpeedTest.new, hrest]
        obtain ⟨cfg, hcfg, hp⟩ := ih hrec hn
        exact ⟨cfg, List.mem_cons_of_mem kv hcfg, hp⟩

/-- The top level of the result tree has exactly one key per proxy
provider (the engine's outer sweep is a total map). -/
lemma run_tests_keys (P : List (String × Plugin × List ProtocolDescriptor))
    (T : List (String × Plugin × List TestDescriptor)) :
    (run_tests P T).map Prod.fst = P.map Prod.fst := by
  simp only [run_tests, List.map_map]
  rfl

/-- The per-connection sweep has exactly one key per test provider. -/
lemma runTestsForConn_keys (T : List (String × Plugin × List TestDescriptor))
    (conn : ConnectionDescriptor) :
    (runTestsForConn T conn).map Prod.fst = T.map Prod.fst := by
  simp only [runTestsForConn, List.map_map]
  rfl

/-- The only `panic!` the loader can raise is the launcher's
no-pattern-match panic. -/
lemma load_panic_eq {cfg : PluginConfig} {w : World} {p : Panic}
    (h : load_json_rpc_plugin cfg w = .error p) :
    p = .noPatternMatch listenPattern := by
  unfold load_json_rpc_plugin at h
  split at h
  · rcases hw : create_process_and_wait_for_pattern listenMatch id w.lines
      with _ | pr <;> rw [hw] at h
    · injection h with h
      exact h.symm
    · cases h
  · cases h

/-- A panicking load unwinds through the `join_all`: the whole load phase
returns the panic. -/
lemma loadAll_panic {plugins : List (String × PluginConfig)}
    {world : String → World} {name : String} {cfg : PluginConfig}
    (hmem : (name, cfg) ∈ plugins)
    (hpanic : load_json_rpc_plugin cfg (world name) =
      .error (.noPatternMatch listenPattern)) :
    loadAll plugins world = .error (.noPatternMatch listenPattern) := by
  induction plugins with
  | nil => cases hmem
  | cons kv rest ih =>
    rcases List.mem_cons.mp hmem with h | h
    · have hkv : load_json_rpc_plugin kv.2 (world kv.1) =
          .error (.noPatternMatch listenPattern) := by
        rw [← h]
        exact hpanic
      simp only [loadAll, hkv]
    · have hrec := ih h
      rcases hload : load_json_rpc_plugin kv.2 (world kv.1) with p | r
      · simp only [loadAll, hload]
        rw [load_panic_eq hload]
      · simp only [loadAll, hload, hrec]

/- ------------------------------------------------------------------
Claim theorems
------------------------------------------------------------------- -/

/-- C9: the launcher applies the pattern to each merged output line in
arrival order; on the first matching line it returns the transform of that
match's captures paired with the unconsumed remainder, and the preceding
non-matching lines do not influence the returned value. -/
theorem C9_launcher_first_match {α β : Type} (re : String → Option α)
    (transform : α → β) (pre : List String) (l : String)
    (post : List String) (caps : α)
    (hpre : ∀ x ∈ pre, re x = none) (hl : re l = some caps) :
    create_process_and_wait_for_pattern re transform (pre ++ l :: post) =
      some (transform caps, post) := by
  unfold create_process_and_wait_for_pattern
  rw [waitForPattern_append_none re pre (l :: post) hpre]
  simp only [waitForPattern, hl]

/-- Witness for C9 at a concrete line sequence. -/
theorem C9_launcher_first_match_witness :
    create_process_and_wait_for_pattern
      (fun s => if s = "ready" then some 7 else none) (fun n => n + 1)
      (["boot", "warm"] ++ "ready" :: ["late"]) = some (8, ["late"]) :=
  C9_launcher_first_match (fun s => if s = "ready" then some 7 else none)
    (fun n => n + 1) ["boot", "warm"] "ready" ["late"] 7
    (by decide) (by decide)

/-- C4: with one plugin `A` offering proxy `p1` and test `t1`, whose setup
succeeds and whose test returns `{"latency_ms": 42}`, the full run produces
exactly the tree `{A:{p1:{A:{t1:{"latency_ms":42}}}}}`. -/
theorem C4_single_plugin_scenario :
    pipeline [("A", cfgFileA)] (fun _ => worldA) "x" =
      .ok [("A", [("p1", [("A", [("t1", latency42)])])])] := rfl

/-- C1: every leaf of the result tree is exactly a value returned by a
successful `run_test` call over a connection returned by a successful
set-up-proxy (`configure`) call — no leaf holds an error marker or a null
fill. -/
theorem C1_leaves_from_successes
    (P : List (String × Plugin × List ProtocolDescriptor))
    (T : List (String × Plugin × List TestDescriptor))
    (pp : String) (branches : List (String × List (String × List (String × Value))))
    (px : String) (sub : List (String × List (String × Value)))
    (tp : String) (leaves : List (String × Value)) (tn : String) (v : Value)
    (h1 : (pp, branches) ∈ run_tests P T)
    (h2 : (px, sub) ∈ branches)
    (h3 : (tp, leaves) ∈ sub)
    (h4 : (tn, v) ∈ leaves) :
    ∃ plugin proxies proxy conn tplugin tests t,
      (pp, plugin, proxies) ∈ P ∧ proxy ∈ proxies ∧ proxy.name = px ∧
      plugin.configure proxy.content = .ok conn ∧
      (tp, tplugin, tests) ∈ T ∧ t ∈ tests ∧ t.name = tn ∧
      tplugin.run_test t conn = .ok v := by
  simp only [run_tests, List.mem_map] at h1
  obtain ⟨e, heP, heq⟩ := h1
  obtain ⟨pp', plugin, proxies⟩ := e
  injection heq with hpp hbr
  subst hpp
  subst hbr
  simp only [runProxies, List.mem_filterMap] at h2
  obtain ⟨proxy, hproxy, hmatch⟩ := h2
  rcases hc : plugin.configure proxy.content with ec | conn
  · simp only [hc] at hmatch
    exact Option.noConfusion hmatch
  · simp only [hc, Option.some.injEq, Prod.mk.injEq] at hmatch
    obtain ⟨hname, hsub⟩ := hmatch
    subst hsub
    simp only [runTestsForConn, List.mem_map] at h3
    obtain ⟨te, hte, heq2⟩ := h3
    obtain ⟨tp', tplugin, tests⟩ := te
    injection heq2 with htp hleaves
    subst htp
    subst hleaves
    simp only [testLeaves, List.mem_filterMap] at h4
    obtain ⟨t, ht, hmatch2⟩ := h4
    rcases hr : tplugin.run_test t conn with er | w
    · simp only [hr] at hmatch2
      exact Option.noConfusion hmatch2
    · simp only [hr, Option.some.injEq, Prod.mk.injEq] at hmatch2
      obtain ⟨htn, hv⟩ := hmatch2
      exact ⟨plugin, proxies, proxy, conn, tplugin, tests, t, heP, hproxy,
        hname, hc, hte, ht, htn, hv ▸ hr⟩

/-- Witness for C1 on the single-plugin scenario tree. -/
theorem C1_leaves_from_successes_witness :
    ∃ plugin proxies proxy conn tplugin tests t,
      ("A", plugin, proxies) ∈ [("A", pluginA, [descP1])] ∧ proxy ∈ proxies ∧
      ProtocolDescriptor.name proxy = "p1" ∧
      Plugin.configure plugin (ProtocolDescriptor.content proxy) = .ok conn ∧
      ("A", tplugin, tests) ∈ [("A", pluginA, [descT1])] ∧ t ∈ tests ∧
      TestDescriptor.name t = "t1" ∧
      Plugin.run_test tplugin t conn = .ok latency42 :=
  C1_leaves_from_successes [("A", pluginA, [descP1])] [("A", pluginA, [descT1])]
    "A" [("p1", [("A", [("t1", latency42)])])]
    "p1" [("A", [("t1", latency42)])]
    "A" [("t1", latency42)] "t1" latency42
    (List.mem_singleton.mpr rfl) (List.mem_singleton.mpr rfl)
    (List.mem_singleton.mpr rfl) (List.mem_singleton.mpr rfl)

/-- C2: a proxy whose setup (`configure`) fails contributes no key under
its provider; siblings and other providers are processed exactly as if the
failing proxy were absent; a single provider whose only proxy fails yields
`{provider: {}}`. -/
theorem C2_setup_failure_skips_proxy
    (A B : List (String × Plugin × List ProtocolDescriptor))
    (T : List (String × Plugin × List TestDescriptor))
    (pp : String) (plugin : Plugin) (pre post : List ProtocolDescriptor)
    (proxy : ProtocolDescriptor) (e : PluginError)
    (hfail : plugin.configure proxy.content = .error e) :
    run_tests (A ++ (pp, plugin, pre ++ proxy :: post) :: B) T =
      run_tests (A ++ (pp, plugin, pre ++ post) :: B) T ∧
    (proxy.name ∉ (pre ++ post).map ProtocolDescriptor.name →
      proxy.name ∉ (runProxies plugin (pre ++ proxy :: post) T).map Prod.fst) ∧
    run_tests [(pp, plugin, [proxy])] T = [(pp, [])] := by
  have hrp : runProxies plugin (pre ++ proxy :: post) T =
      runProxies plugin (pre ++ post) T := by
    simp only [runProxies, List.filterMap_append, List.filterMap_cons, hfail]
  refine ⟨?_, ?_, ?_⟩
  · simp only [run_tests, List.map_append, List.map_cons, hrp]
  · intro hdist hmem
    simp only [runProxies, List.map_filterMap, List.mem_filterMap] at hmem
    obtain ⟨q, hq, hopt⟩ := hmem
    rcases hcq : plugin.configure q.content with eq | conn <;> rw [hcq] at hopt
    · cases hopt
    · simp only [Option.map_some', Option.some.injEq] at hopt
      have hqne : q ≠ proxy := by
        intro hqp
        rw [hqp, hfail] at hcq
        cases hcq
      have hq' : q ∈ pre ++ post := by
        rcases List.mem_append.mp hq with h | h
        · exact List.mem_append.mpr (Or.inl h)
        · rcases List.mem_cons.mp h with h | h
          · exact absurd h hqne
          · exact List.mem_append.mpr (Or.inr h)
      exact hdist (hopt ▸ List.mem_map_of_mem ProtocolDescriptor.name hq')
  · simp only [run_tests, runProxies, List.map_cons, List.map_nil,
      List.filterMap_cons, List.filterMap_nil, hfail]

/-- Witness for C2: one provider `A`, one failing proxy `p1` — the tree is
`{A:{}}` and the proxy key is absent. -/
theorem C2_setup_failure_skips_proxy_witness :
    run_tests [("A", pluginFail, [descP1])] [("A", pluginFail, [descT1])] =
      run_tests [("A", pluginFail, ([] : List ProtocolDescriptor))]
        [("A", pluginFail, [descT1])] ∧
    "p1" ∉ (runProxies pluginFail [descP1]
      [("A", pluginFail, [descT1])]).map Prod.fst ∧
    run_tests [("A", pluginFail, [descP1])] [("A", pluginFail, [descT1])] =
      [("A", [])] :=
  ⟨(C2_setup_failure_skips_proxy [] [] [("A", pluginFail, [descT1])] "A"
      pluginFail [] [] descP1 (.ClientError "connection refused") rfl).1,
   (C2_setup_failure_skips_proxy [] [] [("A", pluginFail, [descT1])] "A"
      pluginFail [] [] descP1 (.ClientError "connection refused") rfl).2.1
     (by simp),
   (C2_setup_failure_skips_proxy [] [] [("A", pluginFail, [descT1])] "A"
      pluginFail [] [] descP1 (.ClientError "connection refused") rfl).2.2⟩

/-- C3: over one successful connection, a failing `run_test` removes
exactly its own leaf: the sweep equals the sweep without that test, the
failing test's name is absent from its provider's leaves (sibling names
being distinct), and every other successful test of any provider keeps its
leaf with its returned value. -/
theorem C3_test_failure_skips_single_leaf
    (TA TB : List (String × Plugin × List TestDescriptor))
    (tp : String) (tplugin : Plugin) (tpre tpost : List TestDescriptor)
    (t : TestDescriptor) (conn : ConnectionDescriptor) (e : PluginError)
    (hfail : tplugin.run_test t conn = .error e) :
    runTestsForConn (TA ++ (tp, tplugin, tpre ++ t :: tpost) :: TB) conn =
      runTestsForConn (TA ++ (tp, tplugin, tpre ++ tpost) :: TB) conn ∧
    (t.name ∉ (tpre ++ tpost).map TestDescriptor.name →
      t.name ∉ (testLeaves tplugin (tpre ++ t :: tpost) conn).map Prod.fst) ∧
    (∀ tp' tplugin' tests',
      (tp', tplugin', tests') ∈ TA ++ (tp, tplugin, tpre ++ t :: tpost) :: TB →
      ∀ t' ∈ tests', ∀ v, tplugin'.run_test t' conn = .ok v →
        ∃ leaves,
          (tp', leaves) ∈
            runTestsForConn (TA ++ (tp, tplugin, tpre ++ t :: tpost) :: TB) conn ∧
          (t'.name, v) ∈ leaves) := by
  have htl : testLeaves tplugin (tpre ++ t :: tpost) conn =
      testLeaves tplugin (tpre ++ tpost) conn := by
    simp only [testLeaves, List.filterMap_append, List.filterMap_cons, hfail]
  refine ⟨?_, ?_, ?_⟩
  · simp only [runTestsForConn, List.map_append, List.map_cons, htl]
  · intro hdist hmem
    simp only [testLeaves, List.map_filterMap, List.mem_filterMap] at hmem
    obtain ⟨q, hq, hopt⟩ := hmem
    rcases hrq : tplugin.run_test q conn with eq | w <;> rw [hrq] at hopt
    · cases hopt
    · simp only [Option.map_some', Option.some.injEq] at hopt
      have hqne : q ≠ t := by
        intro hqt
        rw [hqt, hfail] at hrq
        cases hrq
      have hq' : q ∈ tpre ++ tpost := by
        rcases List.mem_append.mp hq with h | h
        · exact List.mem_append.mpr (Or.inl h)
        · rcases List.mem_cons.mp h with h | h
          · exact absurd h hqne
          · exact List.mem_append.mpr (Or.inr h)
      exact hdist (hopt ▸ List.mem_map_of_mem TestDescriptor.name hq')
  · intro tp' tplugin' tests' hmem t' ht' v hok
    refine ⟨testLeaves tplugin' tests' conn, ?_, ?_⟩
    · have := List.mem_map_of_mem
        (fun e => (e.1, testLeaves e.2.1 e.2.2 conn)) hmem
      exact this
    · simp only [testLeaves, List.mem_filterMap]
      exact ⟨t', ht', by rw [hok]⟩

/-- Witness for C3: test `bad` of provider `S` fails, test `good` keeps
its leaf. -/
theorem C3_test_failure_skips_single_leaf_witness :
    runTestsForConn [("S", pluginSel,
        [(⟨"good"⟩ : TestDescriptor)] ++ (⟨"bad"⟩ : TestDescriptor) :: [])] connA =
      runTestsForConn [("S", pluginSel,
        [(⟨"good"⟩ : TestDescriptor)] ++ [])] connA ∧
    "bad" ∉ (testLeaves pluginSel
      ([(⟨"good"⟩ : TestDescriptor)] ++ (⟨"bad"⟩ : TestDescriptor) :: [])
      connA).map Prod.fst ∧
    (∃ leaves,
      ("S", leaves) ∈ runTestsForConn [("S", pluginSel,
        [(⟨"good"⟩ : TestDescriptor)] ++ (⟨"bad"⟩ : TestDescriptor) :: [])] connA ∧
      ("good", Value.num 1) ∈ leaves) :=
  ⟨(C3_test_failure_skips_single_leaf [] [] "S" pluginSel [⟨"good"⟩] []
      ⟨"bad"⟩ connA (.APIBadResponse "boom") rfl).1,
   (C3_test_failure_skips_single_leaf [] [] "S" pluginSel [⟨"good"⟩] []
      ⟨"bad"⟩ connA (.APIBadResponse "boom") rfl).2.1 (by simp),
   (C3_test_failure_skips_single_leaf [] [] "S" pluginSel [⟨"good"⟩] []
      ⟨"bad"⟩ connA (.APIBadResponse "boom") rfl).2.2 "S" pluginSel
     ([⟨"good"⟩] ++ ⟨"bad"⟩ :: []) (List.mem_singleton.mpr rfl)
     ⟨"good"⟩ (List.mem_cons_self _ _) (Value.num 1) rfl⟩

/-- C10: the tree is total at the odd levels and sparse at the even ones:
top-level keys are exactly the proxy-provider keys (an all-failing
provider still appears, mapped to `[]`); under a successfully configured
proxy the third-level keys are exactly the test-provider keys (an
all-failing test provider still appears, mapped to `[]`). -/
theorem C10_tree_shape
    (P : List (String × Plugin × List ProtocolDescriptor))
    (T : List (String × Plugin × List TestDescriptor))
    (pp ppF tpF : String) (plugin pluginF tpluginF : Plugin)
    (proxies proxiesF : List ProtocolDescriptor)
    (testsF : List TestDescriptor)
    (proxy : ProtocolDescriptor) (conn : ConnectionDescriptor)
    (h1 : (pp, plugin, proxies) ∈ P)
    (h2 : (ppF, pluginF, proxiesF) ∈ P)
    (h3 : ∀ q ∈ proxiesF, ∃ e, pluginF.configure q.content = .error e)
    (h4 : proxy ∈ proxies)
    (h5 : plugin.configure proxy.content = .ok conn)
    (h6 : (tpF, tpluginF, testsF) ∈ T)
    (h7 : ∀ t ∈ testsF, ∃ e, tpluginF.run_test t conn = .error e) :
    (run_tests P T).map Prod.fst = P.map Prod.fst ∧
    (ppF, ([] : List (String × List (String × List (String × Value))))) ∈
      run_tests P T ∧
    (pp, runProxies plugin proxies T) ∈ run_tests P T ∧
    (proxy.name, runTestsForConn T conn) ∈ runProxies plugin proxies T ∧
    (runTestsForConn T conn).map Prod.fst = T.map Prod.fst ∧
    (tpF, ([] : List (String × Value))) ∈ runTestsForConn T conn := by
  refine ⟨run_tests_keys P T, ?_,
    List.mem_map.mpr ⟨(pp, plugin, proxies), h1, rfl⟩, ?_,
    runTestsForConn_keys T conn, ?_⟩
  · have hnil : runProxies pluginF proxiesF T = [] := by
      simp only [runProxies, List.filterMap_eq_nil_iff]
      intro q hq
      obtain ⟨e, he⟩ := h3 q hq
      simp only [he]
    exact List.mem_map.mpr ⟨(ppF, pluginF, proxiesF), h2, by
      dsimp only
      rw [hnil]⟩
  · simp only [runProxies]
    exact List.mem_filterMap.mpr ⟨proxy, h4, by simp only [h5]⟩
  · have hnil : testLeaves tpluginF testsF conn = [] := by
      simp only [testLeaves, List.filterMap_eq_nil_iff]
      intro t ht
      obtain ⟨e, he⟩ := h7 t ht
      simp only [he]
    exact List.mem_map.mpr ⟨(tpF, tpluginF, testsF), h6, by
      dsimp only
      rw [hnil]⟩

/-- Witness for C10: provider `A` succeeds, provider `F` fails all its
proxies and all its tests. -/
theorem C10_tree_shape_witness :
    (run_tests provP0 provT0).map Prod.fst = provP0.map Prod.fst ∧
    ("F", ([] : List (String × List (String × List (String × Value))))) ∈
      run_tests provP0 provT0 ∧
    ("A", runProxies pluginA [descP1] provT0) ∈ run_tests provP0 provT0 ∧
    ("p1", runTestsForConn provT0 connA) ∈ runProxies pluginA [descP1] provT0 ∧
    (runTestsForConn provT0 connA).map Prod.fst = provT0.map Prod.fst ∧
    ("F", ([] : List (String × Value))) ∈ runTestsForConn provT0 connA :=
  C10_tree_shape provP0 provT0 "A" "F" "F" pluginA pluginFail pluginFail
    [descP1] [descP1] [descT1] descP1 connA
    (List.mem_cons_self _ _)
    (List.mem_cons_of_mem _ (List.mem_singleton.mpr rfl))
    (fun _ _ => ⟨.ClientError "connection refused", rfl⟩)
    (List.mem_singleton.mpr rfl) rfl
    (List.mem_cons_of_mem _ (List.mem_singleton.mpr rfl))
    (fun _ _ => ⟨.ClientError "connection refused", rfl⟩)

/-- C5: a plugin configured with a non-`file` URI scheme fails to load
with `UnexpectedScheme`, is excluded from the registry, and its name
appears neither in the proxy-provider map, the test-provider map, nor at
either provider level of the result tree. -/
theorem C5_unexpected_scheme_excluded
    (plugins : List (String × PluginConfig)) (world : String → World)
    (cs : String) (name : String) (cfg : PluginConfig) (pm : PluginMap)
    (pp : String)
    (branches : List (String × List (String × List (String × Value))))
    (px : String) (sub : List (String × List (String × Value)))
    (hmem : (name, cfg) ∈ plugins)
    (hscheme : cfg.source.scheme ≠ "file")
    (hnodup : (plugins.map Prod.fst).Nodup)
    (hok : SpeedTest.new plugins world = .ok pm)
    (htree : (pp, branches) ∈ run_tests (SpeedTest.get_proxy_provider pm cs)
      (SpeedTest.get_test_provider pm))
    (hbr : (px, sub) ∈ branches) :
    load_json_rpc_plugin cfg (world name) =
      .ok (.error (.UnexpectedScheme cfg.source)) ∧
    name ∉ pm.map Prod.fst ∧
    name ∉ (SpeedTest.get_proxy_provider pm cs).map Prod.fst ∧
    name ∉ (SpeedTest.get_test_provider pm).map Prod.fst ∧
    name ∉ (run_tests (SpeedTest.get_proxy_provider pm cs)
      (SpeedTest.get_test_provider pm)).map Prod.fst ∧
    name ∉ sub.map Prod.fst := by
  have hload : load_json_rpc_plugin cfg (world name) =
      .ok (.error (.UnexpectedScheme cfg.source)) := by
    simp only [load_json_rpc_plugin, if_neg hscheme]
  have hpm : name ∉ pm.map Prod.fst := by
    intro h
    obtain ⟨cfg', hmem', p, hp⟩ := new_ok_mem_keys hok h
    have hcfg : cfg' = cfg := assoc_value_eq hnodup hmem' hmem
    rw [hcfg, hload] at hp
    injection hp with hp
    cases hp
  have hgpp : name ∉ (SpeedTest.get_proxy_provider pm cs).map Prod.fst :=
    fun h => hpm (get_provider_map_keys_sub pm _ cs h)
  have hgtp : name ∉ (SpeedTest.get_test_provider pm).map Prod.fst :=
    fun h => hpm (get_provider_map_keys_sub pm _ () h)
  have htop : name ∉ (run_tests (SpeedTest.get_proxy_provider pm cs)
      (SpeedTest.get_test_provider pm)).map Prod.fst := by
    rw [run_tests_keys]
    exact hgpp
  refine ⟨hload, hpm, hgpp, hgtp, htop, ?_⟩
  simp only [run_tests, List.mem_map] at htree
  obtain ⟨e, heP, heq⟩ := htree
  injection heq with _h1 h2
  subst h2
  simp only [runProxies, List.mem_filterMap] at hbr
  obtain ⟨proxy, hproxy, hopt⟩ := hbr
  rcases hc : e.2.1.configure proxy.content with ec | conn
  · simp only [hc] at hopt
    exact Option.noConfusion hopt
  · simp only [hc, Option.some.injEq, Prod.mk.injEq] at hopt
    obtain ⟨hpx, hsub⟩ := hopt
    subst hsub
    rw [runTestsForConn_keys]
    exact hgtp

/-- Witness for C5: a `docker`-scheme plugin `D` next to a healthy
`file`-scheme plugin `A`. -/
theorem C5_unexpected_scheme_excluded_witness :
    load_json_rpc_plugin cfgDockerD worldA =
      .ok (.error (.UnexpectedScheme cfgDockerD.source)) ∧
    "D" ∉ ([("A", pluginA)] : PluginMap).map Prod.fst ∧
    "D" ∉ (SpeedTest.get_proxy_provider [("A", pluginA)] "x").map Prod.fst ∧
    "D" ∉ (SpeedTest.get_test_provider [("A", pluginA)]).map Prod.fst ∧
    "D" ∉ (run_tests (SpeedTest.get_proxy_provider [("A", pluginA)] "x")
      (SpeedTest.get_test_provider [("A", pluginA)])).map Prod.fst ∧
    "D" ∉ ([("A", [("t1", latency42)])] :
      List (String × List (String × Value))).map Prod.fst :=
  C5_unexpected_scheme_excluded [("D", cfgDockerD), ("A", cfgFileA)]
    (fun _ => worldA) "x" "D" cfgDockerD [("A", pluginA)]
    "A" [("p1", [("A", [("t1", latency42)])])]
    "p1" [("A", [("t1", latency42)])]
    (List.mem_cons_self _ _) (by decide) (by decide) rfl
    (List.mem_singleton.mpr rfl) (List.mem_singleton.mpr rfl)

/-- C6: a plugin whose discovery call fails contributes no entry to that
sweep's mapping while a plugin whose call succeeds is mapped to exactly
the returned descriptor sequence, and failing in one sweep does not
remove a plugin from the other sweep's mapping. -/
theorem C6_discovery_failure_isolation
    (pm : PluginMap) (cs : String)
    (nf ns : String) (pf ps : Plugin)
    (ef et : PluginError)
    (vt : List TestDescriptor) (vs : List ProtocolDescriptor)
    (hnodup : (pm.map Prod.fst).Nodup)
    (hf : (nf, pf) ∈ pm)
    (hfp : pf.parse_protocol cs = .error ef)
    (hft : pf.tests () = .ok vt)
    (hs : (ns, ps) ∈ pm)
    (hsp : ps.parse_protocol cs = .ok vs)
    (hst : ps.tests () = .error et) :
    nf ∉ (SpeedTest.get_proxy_provider pm cs).map Prod.fst ∧
    (nf, pf, vt) ∈ SpeedTest.get_test_provider pm ∧
    (ns, ps, vs) ∈ SpeedTest.get_proxy_provider pm cs ∧
    ns ∉ (SpeedTest.get_test_provider pm).map Prod.fst :=
  ⟨not_mem_provider_map_of_error pm
      (fun _ plugin s => plugin.parse_protocol s) cs hnodup hf hfp,
   mem_get_provider_map_of_ok pm
      (fun _ plugin _ => plugin.tests ()) () hf hft,
   mem_get_provider_map_of_ok pm
      (fun _ plugin s => plugin.parse_protocol s) cs hs hsp,
   not_mem_provider_map_of_error pm
      (fun _ plugin _ => plugin.tests ()) () hnodup hs hst⟩

/-- Witness for C6: plugin `PF` fails proxy discovery but keeps its test
entry; plugin `PS` fails test discovery but keeps its proxy entry. -/
theorem C6_discovery_failure_isolation_witness :
    "PF" ∉ (SpeedTest.get_proxy_provider pmC6 "x").map Prod.fst ∧
    ("PF", pluginPF, [descT1]) ∈ SpeedTest.get_test_provider pmC6 ∧
    ("PS", pluginPS, [descP1]) ∈ SpeedTest.get_proxy_provider pmC6 "x" ∧
    "PS" ∉ (SpeedTest.get_test_provider pmC6).map Prod.fst :=
  C6_discovery_failure_isolation pmC6 "x" "PF" "PS" pluginPF pluginPS
    (.ClientError "cannot parse") (.ClientError "no test list")
    [descT1] [descP1]
    (by decide) (List.mem_cons_self _ _) rfl rfl
    (List.mem_cons_of_mem _ (List.mem_singleton.mpr rfl)) rfl rfl

/-- C7 counterexample: on the single-plugin scenario the core issues
`parse_protocol`, `tests`, `setup_proxy` and `run_test` calls to the
constructed plugin `A` but zero `init` calls — refuting that `init` is
invoked exactly once before any other capability call. -/
theorem C7_counterexample_no_init_call :
    pipelineTrace [("A", cfgFileA)] (fun _ => worldA) "x" =
      [.parse_protocol "A", .tests "A", .setup_proxy "A" "p1",
        .run_test "A" "t1"] ∧
    (pipelineTrace [("A", cfgFileA)] (fun _ => worldA) "x").count
      (CallEvent.init "A") = 0 :=
  ⟨rfl, rfl⟩

/-- C7 (amended): the core never invokes the `init` capability on any
plugin at any stage of a run — `init` exists in the capability interface
but has no call site in the orchestration core. -/
theorem C7_amended_core_never_calls_init
    (plugins : List (String × PluginConfig)) (world : String → World)
    (cs : String) (name : String) :
    (pipelineTrace plugins world cs).count (CallEvent.init name) = 0 := by
  rw [List.count_eq_zero]
  unfold pipelineTrace
  rcases hnew : SpeedTest.new plugins world with p | pm <;> simp only [hnew]
  · simp [loadTrace]
  · intro h
    simp only [loadTrace, List.nil_append, List.mem_append] at h
    rcases h with (h | h) | h
    · simp only [proxyDiscoveryTrace, List.mem_map] at h
      obtain ⟨kv, _, hk⟩ := h
      cases hk
    · simp only [testDiscoveryTrace, List.mem_map] at h
      obtain ⟨kv, _, hk⟩ := h
      cases hk
    · simp only [execTrace, List.mem_flatMap] at h
      obtain ⟨e, _, h⟩ := h
      obtain ⟨proxy, _, h⟩ := h
      rcases List.mem_cons.mp h with h | h
      · cases h
      · rcases hc : e.2.1.configure proxy.content with er | conn <;>
          rw [hc] at h
        · cases h
        · simp only [List.mem_flatMap, List.mem_map] at h
          obtain ⟨te, _, t, _, hk⟩ := h
          cases hk

/-- C8 counterexample: a `file`-scheme plugin whose two output streams end
without a readiness match panics the launcher; the panic is not caught by
the registry — the whole run aborts and the healthy sibling plugin `good`
is never served, refuting the claimed conversion to a logged `LoadError`
with the run continuing. -/
theorem C8_counterexample_panic_aborts_run :
    SpeedTest.new [("bad", cfgFileBad), ("good", cfgFileA)] world2 =
      .error (.noPatternMatch listenPattern) ∧
    pipeline [("bad", cfgFileBad), ("good", cfgFileA)] world2 "x" =
      .error (.noPatternMatch listenPattern) :=
  ⟨rfl, rfl⟩

/-- C8 (amended): when a `file`-sourced plugin's merged output ends before
any line matches the readiness pattern, the launcher's documented `panic!`
propagates through `join_all` and registry construction: the whole run
aborts with the panic instead of isolating the failure to that plugin. -/
theorem C8_amended_panic_aborts
    (plugins : List (String × PluginConfig)) (world : String → World)
    (name : String) (cfg : PluginConfig)
    (hmem : (name, cfg) ∈ plugins)
    (hscheme : cfg.source.scheme = "file")
    (hnomatch : waitForPattern listenMatch (world name).lines = none) :
    SpeedTest.new plugins world = .error (.noPatternMatch listenPattern) := by
  have hpanic : load_json_rpc_plugin cfg (world name) =
      .error (.noPatternMatch listenPattern) := by
    simp only [load_json_rpc_plugin, if_pos hscheme,
      create_process_and_wait_for_pattern, hnomatch]
  have hall := loadAll_panic hmem hpanic
  simp only [SpeedTest.new, hall]

/-- Witness for the amended C8 on a silent subprocess. -/
theorem C8_amended_panic_aborts_witness :
    SpeedTest.new [("bad", cfgFileBad)] (fun _ => worldSilent) =
      .error (.noPatternMatch listenPattern) :=
  C8_amended_panic_aborts [("bad", cfgFileBad)] (fun _ => worldSilent)
    "bad" cfgFileBad (List.mem_cons_self _ _) rfl rfl

end ProxySpeedtest
